import Mathlib

/-!
Verification of the ippproxy tool (src/tools/ippproxy.c) of the ippinfra
repository: a shallow embedding of the proxy's data model and control flow,
with theorems settling the specification's claims about it.

External library calls (CUPS HTTP transport, IPP codec, SHA-256 hashing)
are modelled as environment inputs; everything the proxy itself computes is
translated from the C source.
-/

namespace IppProxy

/-! ## IPP protocol constants (from CUPS ipp.h, as used by ippproxy.c) -/

def IPP_JSTATE_PENDING : Nat := 3
def IPP_JSTATE_HELD : Nat := 4
def IPP_JSTATE_PROCESSING : Nat := 5
def IPP_JSTATE_STOPPED : Nat := 6
def IPP_JSTATE_CANCELED : Nat := 7
def IPP_JSTATE_ABORTED : Nat := 8
def IPP_JSTATE_COMPLETED : Nat := 9

def IPP_DSTATE_PROCESSING : Nat := 5
def IPP_DSTATE_COMPLETED : Nat := 9

def IPP_STATUS_OK : Nat := 0x0000
def IPP_STATUS_REDIRECTION_OTHER_SITE : Nat := 0x0300
def IPP_STATUS_ERROR_BAD_REQUEST : Nat := 0x0400
def IPP_STATUS_ERROR_NOT_FETCHABLE : Nat := 0x0420

def IPP_OP_CREATE_JOB : Nat := 0x0005
def IPP_OP_SEND_DOCUMENT : Nat := 0x0006

/-! ## Fibonacci back-off (ippproxy.c lines 28-29)

`#define FIB_NEXT(v) (((((v >> 8) + (v & 255) - 1) % 60) + 1) | ((v & 255) << 8))`
`#define FIB_VALUE(v) (v & 255)`

The states reached from the initial value 1 always have a low byte in 1..60,
so the C unsigned subtraction never wraps and Nat subtraction is faithful. -/

def FIB_NEXT (v : Nat) : Nat :=
  ((((v >>> 8) + (v &&& 255) - 1) % 60) + 1) ||| ((v &&& 255) <<< 8)

def FIB_VALUE (v : Nat) : Nat := v &&& 255

/-- The back-off state after `n` applications of `FIB_NEXT` to the initial
state 1 (`unsigned interval = 1;` in `main` / `get_device_attrs`). -/
def fibState : Nat → Nat
  | 0 => 1
  | n + 1 => FIB_NEXT (fibState n)

/-! ## Event-loop poll sleep (run_printer, lines 1359-1362 and 1456-1463)

`get_interval` comes from the `notify-get-interval` attribute (10 when the
attribute is absent); values outside `[0, 30]` are replaced by 30 before the
one-second-granularity sleep loop. -/

/-- Number of seconds `run_printer` sleeps before the next
`Get-Notifications` poll, as a function of the `notify-get-interval`
attribute of the response (`none` when the attribute is absent). -/
def pollSleep (notifyGetInterval : Option Int) : Int :=
  let get_interval : Int :=
    match notifyGetInterval with
    | some v => v
    | none => 10
  if get_interval < 0 || get_interval > 30 then 30 else get_interval

/-! ## Password resolution (main, lines 279-283)

```c
if (!password)
  password = getenv("IPPPROXY_PASSWORD");
if (password)
  cupsSetPasswordCB(password_cb, password);
```
-/

/-- The password in effect after option parsing: the `-p` argument when
given, otherwise the value of the `IPPPROXY_PASSWORD` environment
variable. `env` models `getenv`. -/
def resolve_password (cliPassword : Option String)
    (env : String → Option String) : Option String :=
  match cliPassword with
  | some p => some p
  | none => env "IPPPROXY_PASSWORD"

/-- Whether `cupsSetPasswordCB(password_cb, password)` is called: only when
a password was obtained from the command line or the environment. -/
def password_cb_registered (cliPassword : Option String)
    (env : String → Option String) : Bool :=
  (resolve_password cliPassword env).isSome

/-! ## Document format selection (run_job, lines 1147-1162)

`doc_formats` is the `document-format-supported` value of the cached local
device attributes; `ippContainsString` is string membership. The chosen
format is sent as `document-format-accepted` in `Fetch-Document` only when
non-NULL (line 1247). -/

/-- The `document-format-accepted` value chosen by `run_job`: the `-m`
option when supplied; otherwise `none` when the device supports
`application/pdf`; otherwise the first supported format among
`image/urf`, `image/pwg-raster`, `application/vnd.hp-pcl`; otherwise
`none`. -/
def chooseDocFormat (outformat : Option String)
    (docFormats : List String) : Option String :=
  match outformat with
  | some f => some f
  | none =>
    if !(docFormats.contains "application/pdf") then
      if docFormats.contains "image/urf" then some "image/urf"
      else if docFormats.contains "image/pwg-raster" then some "image/pwg-raster"
      else if docFormats.contains "application/vnd.hp-pcl" then some "application/vnd.hp-pcl"
      else none
    else none

/-! ## IPP attribute model

`ippproxy.c` manipulates IPP attribute bundles through the CUPS `ipp_t`
API. An attribute is modelled as a name, a group tag, a value tag and a
list of values; a bundle is the list of its attributes in order. -/

/-- IPP value tags, covering the tags that appear in `ippproxy.c`. -/
inductive IppTag where
  | integer
  | enum
  | boolean
  | keyword
  | resolution
  | mimetype
  | rangeOfInteger
  | beginCollection
  | text
  | uri
  | nameTag
  deriving DecidableEq, Repr

/-- IPP attribute group tags. -/
inductive IppGroup where
  | operation
  | printer
  | job
  | document
  | subscription
  | eventNotification
  deriving DecidableEq, Repr

/-- One IPP attribute value. A resolution carries its units
(`IPP_RES_PER_INCH` = 3) and x/y counts; a range carries its bounds. -/
inductive IppData where
  | int (v : Int)
  | bool (v : Bool)
  | str (v : String)
  | res (units : Nat) (x y : Int)
  | range (lo hi : Int)
  deriving DecidableEq, Repr

structure IppAttribute where
  name : String
  group : IppGroup
  tag : IppTag
  values : List IppData
  deriving DecidableEq, Repr

/-- `ippGetInteger(a, i)`: the i-th value when it is an integer/enum,
otherwise 0 (the CUPS getter's failure value). -/
def ippGetIntegerVal (a : IppAttribute) (i : Nat) : Int :=
  match a.values.get? i with
  | some (IppData.int v) => v
  | _ => 0

/-- `ippGetBoolean(a, i)`, with `false` as the failure value. -/
def ippGetBooleanVal (a : IppAttribute) (i : Nat) : Bool :=
  match a.values.get? i with
  | some (IppData.bool v) => v
  | _ => false

/-- `ippGetString(a, i, NULL)`; the NULL failure value is modelled as the
empty string. -/
def ippGetStringVal (a : IppAttribute) (i : Nat) : String :=
  match a.values.get? i with
  | some (IppData.str v) => v
  | _ => ""

/-- `ippFindAttribute(bundle, name, tag)`: the first attribute with the
given name and value tag. -/
def ippFindAttribute (attrs : List IppAttribute) (nm : String)
    (tg : IppTag) : Option IppAttribute :=
  attrs.find? (fun a => a.name == nm && a.tag == tg)

/-- `ippContainsString(attr, s)` on an attribute's string values. -/
def ippContainsStringVal (a : IppAttribute) (s : String) : Bool :=
  (List.range a.values.length).any fun i => ippGetStringVal a i == s

/-! ## attrs_are_equal (ippproxy.c lines 364-421)

The two NULL checks, the value-tag and count comparison, then a per-tag
value comparison; any tag other than integer, enum, boolean or keyword
falls into the `default` case and yields `false`. -/

def attrs_are_equal : Option IppAttribute → Option IppAttribute → Bool
  | none, none => true
  | none, some _ => false
  | some _, none => false
  | some a, some b =>
    if a.tag ≠ b.tag then false
    else if a.values.length ≠ b.values.length then false
    else
      match a.tag with
      | IppTag.integer | IppTag.enum =>
        (List.range a.values.length).all fun i =>
          ippGetIntegerVal a i == ippGetIntegerVal b i
      | IppTag.boolean =>
        (List.range a.values.length).all fun i =>
          ippGetBooleanVal a i == ippGetBooleanVal b i
      | IppTag.keyword =>
        (List.range a.values.length).all fun i =>
          ippGetStringVal a i == ippGetStringVal b i
      | _ => false

/-! ## The printer-attribute whitelist (ippproxy.c lines 68-116) -/

def printer_attrs : List String :=
  [ "copies-default",
    "copies-supported",
    "document-format-default",
    "document-format-supported",
    "finishings-col-database",
    "finishings-col-default",
    "finishings-col-ready",
    "finishings-col-supported",
    "finishings-default",
    "finishings-supported",
    "jpeg-k-octets-supported",
    "media-bottom-margin-supported",
    "media-col-database",
    "media-col-default",
    "media-col-ready",
    "media-col-supported",
    "media-default",
    "media-left-margin-supported",
    "media-ready",
    "media-right-margin-supported",
    "media-size-supported",
    "media-source-supported",
    "media-supported",
    "media-top-margin-supported",
    "media-type-supported",
    "pdf-k-octets-supported",
    "print-color-mode-default",
    "print-color-mode-supported",
    "print-darkness-default",
    "print-darkness-supported",
    "print-quality-default",
    "print-quality-supported",
    "print-scaling-default",
    "print-scaling-supported",
    "printer-darkness-configured",
    "printer-darkness-supported",
    "printer-resolution-default",
    "printer-resolution-supported",
    "printer-state",
    "printer-state-reasons",
    "pwg-raster-document-resolution-supported",
    "pwg-raster-document-sheet-back",
    "pwg-raster-document-type-supported",
    "sides-default",
    "sides-supported",
    "urf-supported" ]

/-! ## update_device_attrs diff (ippproxy.c lines 1840-1855)

For each printer-group attribute of the new bundle, the inner loop walks
the whitelist while `strcmp(name, printer_attrs[i]) > 0`; at an exact
match the attribute is copied into the request when `attrs_are_equal` of
the cached attribute (found by name and value tag) and the new attribute
is false. -/

/-- The inner whitelist scan: true exactly when the scan hits
`strcmp == 0` before a negative comparison ends it. -/
def whitelistScan (nm : String) : List String → Bool
  | [] => false
  | w :: ws =>
    match compare nm w with
    | Ordering.eq => true
    | Ordering.lt => false
    | Ordering.gt => whitelistScan nm ws

/-- Whether `update_device_attrs` copies `attr` into the
`Update-Output-Device-Attributes` request, given the cached
`info->device_attrs` bundle. -/
def attrCopied (cached : List IppAttribute) (attr : IppAttribute) : Bool :=
  attr.group == IppGroup.printer &&
  whitelistScan attr.name printer_attrs &&
  !(attrs_are_equal (ippFindAttribute cached attr.name attr.tag) (some attr))

/-- The printer attributes carried by the `Update-Output-Device-Attributes`
request built by `update_device_attrs(http, info, new_attrs)` when the
cached bundle is `cached`. -/
def update_device_attrs_diff (cached new_attrs : List IppAttribute) :
    List IppAttribute :=
  new_attrs.filter (fun a => attrCopied cached a)

/-! ## make_uuid (ippproxy.c lines 796-822)

The CUPS SHA-256 implementation is external; the hash is an input
`h : Nat → Nat` giving the 32 bytes (indices 0..31, reduced mod 256).
The embedding mirrors the `snprintf` format string
`"urn:uuid:%02x%02x%02x%02x-%02x%02x-%02x%02x-%02x%02x-%02x%02x%02x%02x%02x%02x"`
applied to bytes 16..31 with byte 22 replaced by `(sha256[22] & 15) | 0x30`
and byte 24 by `(sha256[24] & 0x3f) | 0x40`. -/

def hexDigitChar (n : Nat) : Char :=
  if n < 10 then Char.ofNat (48 + n) else Char.ofNat (87 + n)

/-- `%02x` of a byte. -/
def hexByte (b : Nat) : String :=
  String.mk [hexDigitChar ((b % 256) / 16), hexDigitChar (b % 16)]

/-- The first byte of the third UUID group: `(sha256[22] & 15) | 0x30`. -/
def uuidVersionByte (b : Nat) : Nat := ((b % 256) &&& 15) ||| 0x30

/-- The first byte of the fourth UUID group: `(sha256[24] & 0x3f) | 0x40`. -/
def uuidVariantByte (b : Nat) : Nat := ((b % 256) &&& 0x3f) ||| 0x40

def make_uuid (h : Nat → Nat) : String :=
  "urn:uuid:" ++
  hexByte (h 16) ++ hexByte (h 17) ++ hexByte (h 18) ++ hexByte (h 19) ++ "-" ++
  hexByte (h 20) ++ hexByte (h 21) ++ "-" ++
  hexByte (uuidVersionByte (h 22)) ++ hexByte (h 23) ++ "-" ++
  hexByte (uuidVariantByte (h 24)) ++ hexByte (h 25) ++ "-" ++
  hexByte (h 26) ++ hexByte (h 27) ++ hexByte (h 28) ++ hexByte (h 29) ++
  hexByte (h 30) ++ hexByte (h 31)

/-! ## URF → PWG translation in get_device_attrs (ippproxy.c lines 607-683)

The probe response is post-processed: when `urf-supported` is present and
a `pwg-raster-document-*` attribute is absent, the latter is synthesized
from the URF keywords. `RS<n>[-<n>]*` values are parsed with
`strtol(..., 10)` in a loop that keeps each positive value and advances
past one separator character; the loop stops at the end of the token.
(The C sign handling of `strtol` is immaterial here: a parse starting at
a non-digit yields a value `≤ 0`, which ends the loop either way.) -/

/-- `!strncmp(s, p, strlen(p))`: `p` is a leading substring of `s`. -/
def strncmpEq (s p : String) : Bool := p.toList.isPrefixOf s.toList

/-- Leading decimal digits of a character list, as `strtol` consumes them:
the accumulated value and the unconsumed rest. -/
def parseDigits : List Char → Nat → (Nat × List Char)
  | [], acc => (acc, [])
  | c :: cs, acc =>
    if c.isDigit then parseDigits cs (acc * 10 + (c.toNat - 48))
    else (acc, c :: cs)

/-- The resolution values of one `RS...` keyword:
`for (res = strtol(keyword + 2, &ptr, 10); res > 0; res = strtol(ptr + 1, &ptr, 10))`.
`fuel` bounds the recursion (the character list shrinks each round). -/
def rsLoop : Nat → List Char → List Nat
  | 0, _ => []
  | fuel + 1, cs =>
    let (res, rest) := parseDigits cs 0
    if res > 0 then
      res :: (match rest with
              | [] => []
              | _ :: rest2 => rsLoop fuel rest2)
    else []

def rsValues (keyword : String) : List Nat :=
  let cs := keyword.toList.drop 2
  rsLoop (cs.length + 1) cs

/-- `pwg-raster-document-sheet-back` value for a `DM...` keyword. -/
def dmSheetBack (keyword : String) : Option String :=
  if strncmpEq keyword "DM" then
    some (if keyword == "DM1" then "normal"
          else if keyword == "DM2" then "flipped"
          else if keyword == "DM3" then "rotated"
          else "manual-tumble")
  else none

/-- `pwg-raster-document-type-supported` value for a URF color keyword. -/
def urfTypeKeyword (keyword : String) : Option String :=
  if keyword == "ADOBERGB24" then some "adobe-rgb_8"
  else if keyword == "ADOBERGB48" then some "adobe-rgb_16"
  else if keyword == "SRGB24" then some "srgb_8"
  else if keyword == "W8" then some "sgray_8"
  else if keyword == "W16" then some "sgray_16"
  else none

/-- The string values of an attribute, as read by `ippGetString` per index. -/
def attrStrings (a : IppAttribute) : List String :=
  (List.range a.values.length).map fun i => ippGetStringVal a i

/-- The URF → PWG post-processing of the probe response: each block runs
only when `urf-supported` was found (once, before the first block) and
the corresponding `pwg-raster-document-*` attribute is absent at the time
of its own lookup. Resolution and type values accumulate into a single
added attribute; each `DM` keyword adds its own `sheet-back` attribute. -/
def translate_urf_attrs (response : List IppAttribute) : List IppAttribute :=
  match ippFindAttribute response "urf-supported" IppTag.keyword with
  | none => response
  | some u =>
    let urf := attrStrings u
    let step1 :=
      if (ippFindAttribute response "pwg-raster-document-resolution-supported"
            IppTag.resolution).isNone then
        let resolutions := (urf.filter (fun k => strncmpEq k "RS")).flatMap
          (fun k => rsValues k)
        if resolutions.isEmpty then response
        else response ++
          [{ name := "pwg-raster-document-resolution-supported",
             group := IppGroup.printer, tag := IppTag.resolution,
             values := resolutions.map fun r =>
               IppData.res 3 (Int.ofNat r) (Int.ofNat r) }]
      else response
    let step2 :=
      if (ippFindAttribute step1 "pwg-raster-document-sheet-back"
            IppTag.keyword).isNone then
        step1 ++ (urf.filterMap fun k =>
          (dmSheetBack k).map fun v =>
            { name := "pwg-raster-document-sheet-back",
              group := IppGroup.printer, tag := IppTag.keyword,
              values := [IppData.str v] })
      else step1
    if (ippFindAttribute step2 "pwg-raster-document-type-supported"
          IppTag.keyword).isNone then
      let types := urf.filterMap urfTypeKeyword
      if types.isEmpty then step2
      else step2 ++
        [{ name := "pwg-raster-document-type-supported",
           group := IppGroup.printer, tag := IppTag.keyword,
           values := types.map IppData.str }]
    else step2

/-! ## send_document (ippproxy.c lines 1481-1801), job-state effects

The relay worker's submission of one document to the local device. IPP
and transport outcomes are environment inputs. Byte streaming, the
`compression` handling and the `Get-Job-Attributes` wait loop move no
job state: the wait loop's `job_state` variable is dead after the loop
exits, and only `pjob->remote_job_state` is consulted afterwards
(line 1769), so the loop is modelled by the remote state sampled at its
exit. The function reports the assignment it makes to
`pjob->local_job_state` (if any) and whether it reaches the final
`update_document_status(..., IPP_DSTATE_COMPLETED)` call (line 1800),
which the early-return failure paths skip. -/

structure SendEnv where
  /-- `httpSeparateURI` on the device URI succeeded (line 1505). -/
  uriParseOk : Bool
  /-- `httpAddrGetList` found the device host (line 1513). -/
  addrListOk : Bool
  /-- URI scheme of the device URI. -/
  scheme : String
  /-- AppSocket `httpAddrConnect` succeeded (line 1528). -/
  sockConnectOk : Bool
  /-- IPP-path `httpConnect` to the device succeeded (line 1613). -/
  devConnectOk : Bool
  /-- `operations-supported` values of the local device, `none` when the
  attribute is missing from the `Get-Printer-Attributes` response. -/
  opsSupported : Option (List Nat)
  /-- `job-id` of the `Create-Job` response (0 when absent). -/
  createJobId : Int
  /-- `cupsGetError()` after the submission response (line 1734). -/
  submitStatus : Nat
  /-- `pjob->remote_job_state` as sampled when the wait loop exits. -/
  remoteState : Nat
  deriving Repr

structure SendResult where
  /-- The assignment `send_document` makes to `pjob->local_job_state`. -/
  assign : Option Nat
  /-- Whether the final `update_document_status(completed)` is reached. -/
  docCompleted : Bool
  deriving DecidableEq, Repr

def send_document (e : SendEnv) : SendResult :=
  if !e.uriParseOk then ⟨some IPP_JSTATE_ABORTED, false⟩
  else if !e.addrListOk then ⟨some IPP_JSTATE_ABORTED, false⟩
  else if e.scheme == "socket" then
    if !e.sockConnectOk then ⟨some IPP_JSTATE_ABORTED, false⟩
    else ⟨none, true⟩
  else
    if !e.devConnectOk then ⟨some IPP_JSTATE_ABORTED, false⟩
    else
      match e.opsSupported with
      | none => ⟨some IPP_JSTATE_ABORTED, false⟩
      | some ops =>
        let create_job := ops.contains IPP_OP_CREATE_JOB &&
                          ops.contains IPP_OP_SEND_DOCUMENT
        if create_job && e.createJobId ≤ 0 then
          ⟨some IPP_JSTATE_ABORTED, false⟩
        else if e.submitStatus ≥ IPP_STATUS_REDIRECTION_OTHER_SITE then
          ⟨some IPP_JSTATE_ABORTED, false⟩
        else if e.remoteState == IPP_JSTATE_CANCELED then
          ⟨some IPP_JSTATE_CANCELED, true⟩
        else ⟨none, true⟩

/-! ## run_job (ippproxy.c lines 1132-1293)

The per-job relay state machine. The result records the successive values
assigned to `pjob->local_job_state` and the IPP requests issued to the
Infrastructure Printer, in order. -/

inductive ProxyAction where
  | fetchJob
  | acknowledgeJob
  | updateJobStatus (state : Nat)
  | updateDocStatus (docNumber : Nat) (state : Nat)
  | fetchDoc (docNumber : Nat) (formatAccepted : Option String)
  | sendDoc (docNumber : Nat)
  | acknowledgeDoc (docNumber : Nat)
  deriving DecidableEq, Repr

/-- Environment for one iteration of `run_job`'s per-document loop. -/
structure DocEnv where
  /-- `pjob->remote_job_state` read at the top of the loop (line 1236). -/
  remoteAtTop : Nat
  /-- `Fetch-Document` response was NULL. -/
  docNull : Bool
  /-- `cupsGetError()` after `Fetch-Document`. -/
  docStatus : Nat
  /-- `pjob->remote_job_state` read before `send_document` (line 1264). -/
  remoteBeforeSend : Nat
  /-- Environment for the `send_document` call. -/
  send : SendEnv
  deriving Repr

structure RunJobEnv where
  /-- The connection retry loop eventually connects (`info->done` never
  set during it; otherwise `run_job` returns having done nothing). -/
  connectOk : Bool
  /-- `Fetch-Job` response was NULL. -/
  fetchNull : Bool
  /-- `cupsGetError()` after `Fetch-Job`. -/
  fetchStatus : Nat
  /-- `cupsGetError()` after `Acknowledge-Job`. -/
  ackStatus : Nat
  /-- `number-of-documents` value (0 when the attribute is missing). -/
  numDocsAttr : Int
  /-- The `-m` option (`info->outformat`). -/
  outformat : Option String
  /-- `document-format-supported` of the cached device attributes. -/
  docFormats : List String
  /-- Per-iteration environments; `docs i` drives document number `i + 1`. -/
  docs : Nat → DocEnv

/-- The per-document loop (lines 1234-1281): returns the job-state
assignments made during the loop and the actions issued. Recursion is on
the number of remaining documents. -/
def runDocsLoop (env : RunJobEnv) (fmt : Option String) :
    Nat → Nat → List Nat × List ProxyAction
  | _, 0 => ([], [])
  | docNumber, remaining + 1 =>
    let d := env.docs (docNumber - 1)
    if d.remoteAtTop ≥ IPP_JSTATE_ABORTED then
      -- break at the top of the loop
      ([], [])
    else
      let acts1 := [ProxyAction.updateDocStatus docNumber IPP_DSTATE_PROCESSING,
                    ProxyAction.fetchDoc docNumber fmt]
      if d.docNull || d.docStatus ≥ IPP_STATUS_REDIRECTION_OTHER_SITE then
        -- line 1259: mark aborted, break
        ([IPP_JSTATE_ABORTED], acts1)
      else
        let sendStates : List Nat :=
          if d.remoteBeforeSend < IPP_JSTATE_ABORTED then
            (send_document d.send).assign.toList
          else []
        let sendActs : List ProxyAction :=
          if d.remoteBeforeSend < IPP_JSTATE_ABORTED then
            ProxyAction.sendDoc docNumber ::
              (if (send_document d.send).docCompleted then
                 [ProxyAction.updateDocStatus docNumber IPP_DSTATE_COMPLETED]
               else [])
          else []
        let rest := runDocsLoop env fmt (docNumber + 1) remaining
        (sendStates ++ rest.1,
         acts1 ++ sendActs ++ (ProxyAction.acknowledgeDoc docNumber :: rest.2))

structure RunJobResult where
  /-- Successive values assigned to `pjob->local_job_state` by this call
  (the job starts in `pending`, assigned when the record was created). -/
  states : List Nat
  /-- IPP requests issued to the Infrastructure Printer, in order. -/
  actions : List ProxyAction
  deriving Repr

def run_job (env : RunJobEnv) : RunJobResult :=
  let fmt := chooseDocFormat env.outformat env.docFormats
  if !env.connectOk then ⟨[], []⟩
  else if env.fetchNull || env.fetchStatus ≥ IPP_STATUS_REDIRECTION_OTHER_SITE then
    if env.fetchStatus == IPP_STATUS_ERROR_NOT_FETCHABLE then
      -- line 1199: completed, return (no Update-Job-Status)
      ⟨[IPP_JSTATE_COMPLETED], [ProxyAction.fetchJob]⟩
    else
      -- line 1205: aborted, goto update_job
      ⟨[IPP_JSTATE_ABORTED],
       [ProxyAction.fetchJob, ProxyAction.updateJobStatus IPP_JSTATE_ABORTED]⟩
  else if env.ackStatus ≥ IPP_STATUS_REDIRECTION_OTHER_SITE then
    -- line 1220: aborted after Acknowledge-Job, goto update_job
    ⟨[IPP_JSTATE_ABORTED],
     [ProxyAction.fetchJob, ProxyAction.acknowledgeJob,
      ProxyAction.updateJobStatus IPP_JSTATE_ABORTED]⟩
  else
    let num_docs := if env.numDocsAttr < 1 then 1 else env.numDocsAttr.toNat
    let loop := runDocsLoop env fmt 1 num_docs
    -- line 1230: processing, then line 1283: completed, unconditionally
    ⟨IPP_JSTATE_PROCESSING :: (loop.1 ++ [IPP_JSTATE_COMPLETED]),
     ProxyAction.fetchJob :: ProxyAction.acknowledgeJob ::
       ProxyAction.updateJobStatus IPP_JSTATE_PROCESSING ::
       (loop.2 ++ [ProxyAction.updateJobStatus IPP_JSTATE_COMPLETED])⟩

/-- All values `pjob->local_job_state` takes across the record's lifetime
when `run_job` processes it: `pending` from record creation
(lines 1420/2024), then the assignments made by `run_job`. -/
def localStates (env : RunJobEnv) : List Nat :=
  IPP_JSTATE_PENDING :: (run_job env).states

/-- A job state is terminal when it is canceled, aborted or completed. -/
def isTerminalState (s : Nat) : Bool :=
  s == IPP_JSTATE_CANCELED || s == IPP_JSTATE_ABORTED || s == IPP_JSTATE_COMPLETED

/-- A state trace never changes a terminal value: every successor of a
terminal state equals it. -/
def terminalMonotone : List Nat → Bool
  | a :: b :: rest => (!isTerminalState a || a == b) && terminalMonotone (b :: rest)
  | _ => true

/-! ## Startup and exit (main lines 309-322, run_printer lines 1334-1339,
register_printer lines 1009-1125, update_device_attrs lines 1857-1864) -/

/-- `update_device_attrs` succeeds exactly when `cupsGetError()` is
`IPP_STATUS_OK` after the request (line 1859). -/
def update_device_attrs_ok (status : Nat) : Bool := status == IPP_STATUS_OK

/-- The subscription id returned by `register_printer`: 0 (failure) when
the `/ipp/system` registration fails (status ≥ bad-request, no XRI URI,
or reconnect failure), when `Create-Printer-Subscriptions` does not
return `IPP_STATUS_OK`, or when no `notify-subscription-id` is returned. -/
def register_printer (isSystemService : Bool) (regStatus : Nat)
    (xriUri : Option String) (reconnectOk : Bool) (subStatus : Nat)
    (subIdAttr : Option Int) : Int :=
  if isSystemService &&
     (decide (regStatus ≥ IPP_STATUS_ERROR_BAD_REQUEST) || xriUri.isNone ||
      !reconnectOk) then 0
  else if subStatus ≠ IPP_STATUS_OK then 0
  else subIdAttr.getD 0

/-- Whether `run_printer` reaches its `Get-Notifications` polling loop:
both the initial `update_device_attrs` and the bootstrap
`update_remote_jobs` must succeed (lines 1334-1339). -/
def run_printer_enters_poll_loop (updateStatus : Nat)
    (remoteJobsOk : Bool) : Bool :=
  update_device_attrs_ok updateStatus && remoteJobsOk

/-- The process outcome after a successful connection: `main` exits 1
when `register_printer` returns 0 (lines 309-313); otherwise it runs
`run_printer`, deregisters and exits 0 (lines 315-321). Returns the exit
status and whether the polling loop was entered. -/
def proxy_process_outcome (isSystemService : Bool) (regStatus : Nat)
    (xriUri : Option String) (reconnectOk : Bool) (subStatus : Nat)
    (subIdAttr : Option Int) (updateStatus : Nat) (remoteJobsOk : Bool) :
    Nat × Bool :=
  let sid := register_printer isSystemService regStatus xriUri reconnectOk
               subStatus subIdAttr
  if sid = 0 then (1, false)
  else (0, run_printer_enters_poll_loop updateStatus remoteJobsOk)


/-! # Theorems settling the claims -/

/-! ## Concrete environments used below -/

/-- A `send_document` environment on which every step succeeds and the
remote job stays `pending`. -/
def okSendEnv : SendEnv :=
  { uriParseOk := true, addrListOk := true, scheme := "ipp",
    sockConnectOk := true, devConnectOk := true,
    opsSupported := some [IPP_OP_CREATE_JOB, IPP_OP_SEND_DOCUMENT],
    createJobId := 42, submitStatus := IPP_STATUS_OK,
    remoteState := IPP_JSTATE_PENDING }

/-- A document iteration on which every step succeeds. -/
def okDocEnv : DocEnv :=
  { remoteAtTop := IPP_JSTATE_PENDING, docNull := false,
    docStatus := IPP_STATUS_OK, remoteBeforeSend := IPP_JSTATE_PENDING,
    send := okSendEnv }

/-- A one-document job whose remote job is canceled while `send_document`
waits on the local device: `send_document` assigns `canceled`
(line 1792), then `run_job` line 1283 assigns `completed`. -/
def canceledMidPrintEnv : RunJobEnv :=
  { connectOk := true, fetchNull := false, fetchStatus := IPP_STATUS_OK,
    ackStatus := IPP_STATUS_OK, numDocsAttr := 1, outformat := none,
    docFormats := [],
    docs := fun _ => { okDocEnv with
      send := { okSendEnv with remoteState := IPP_JSTATE_CANCELED } } }

/-- A one-document job whose `Fetch-Document` fails with
`bad-request`: `run_job` line 1259 assigns `aborted` and breaks, then
line 1283 assigns `completed`. -/
def docFetchFailEnv : RunJobEnv :=
  { connectOk := true, fetchNull := false, fetchStatus := IPP_STATUS_OK,
    ackStatus := IPP_STATUS_OK, numDocsAttr := 1, outformat := none,
    docFormats := [],
    docs := fun _ => { okDocEnv with
      docStatus := IPP_STATUS_ERROR_BAD_REQUEST } }

/-! ## C1 -/

/-- C1: the claim that `local_job_state` never changes once terminal fails
on the code. With a remote cancellation during `send_document` the trace
is pending → processing → canceled → completed, and with a failed
`Fetch-Document` it is pending → processing → aborted → completed: the
unconditional `pjob->local_job_state = IPP_JSTATE_COMPLETED` after the
document loop (line 1283) overwrites the terminal value that
`send_document` (line 1792) or the fetch-failure branch (line 1259) set. -/
theorem C1_terminal_state_overwritten :
    localStates canceledMidPrintEnv =
      [IPP_JSTATE_PENDING, IPP_JSTATE_PROCESSING,
       IPP_JSTATE_CANCELED, IPP_JSTATE_COMPLETED] ∧
    terminalMonotone (localStates canceledMidPrintEnv) = false ∧
    localStates docFetchFailEnv =
      [IPP_JSTATE_PENDING, IPP_JSTATE_PROCESSING,
       IPP_JSTATE_ABORTED, IPP_JSTATE_COMPLETED] ∧
    terminalMonotone (localStates docFetchFailEnv) = false := by
  refine ⟨by decide, by decide, by decide, by decide⟩

/-! ## C2 -/

set_option maxRecDepth 2048 in
/-- C2: `make_uuid` forces the version nibble of the third group to 3,
but the fourth group's first byte is `(sha256[24] & 0x3f) | 0x40`, which
always lies in `[0x40, 0x7f]` — its top two bits are 01 and its first hex
digit is in 4..7, never the 8..b that the claimed variant bits 10 would
produce. On the all-zero hash the UUID is
`urn:uuid:00000000-0000-3000-4000-000000000000`. -/
theorem C2_make_uuid_variant_bits_are_01 :
    (∀ h : Nat → Nat,
       0x40 ≤ uuidVariantByte (h 24) ∧ uuidVariantByte (h 24) < 0x80) ∧
    make_uuid (fun _ => 0) = "urn:uuid:00000000-0000-3000-4000-000000000000" ∧
    (make_uuid (fun _ => 0)).toList.get? 28 = some '4' := by
  refine ⟨?_, by decide, by decide⟩
  intro h
  have hb : h 24 % 256 < 256 := Nat.mod_lt _ (by decide)
  have hall : ∀ b < 256, 0x40 ≤ ((b &&& 0x3f) ||| 0x40) ∧
      ((b &&& 0x3f) ||| 0x40) < 0x80 := by decide
  exact hall _ hb

/-! ## C4 -/

/-- An environment in which only `PROXY_PASSWORD` is set. -/
def proxyPasswordOnlyEnv : String → Option String :=
  fun nm => if nm = "PROXY_PASSWORD" then some "secret" else none

/-- C4 counterexample: with `PROXY_PASSWORD` set (and `-p` absent) the
proxy obtains no password and registers no password callback — the
variable the code reads (line 280) is `IPPPROXY_PASSWORD`, not
`PROXY_PASSWORD`. -/
theorem C4_counterexample :
    proxyPasswordOnlyEnv "PROXY_PASSWORD" = some "secret" ∧
    resolve_password none proxyPasswordOnlyEnv = none ∧
    password_cb_registered none proxyPasswordOnlyEnv = false := by
  refine ⟨by decide, by decide, by decide⟩

/-- C4 amended: when `-p` is not given the password comes from the
environment variable `IPPPROXY_PASSWORD`, and the password callback is
registered exactly when a password was obtained from either source. -/
theorem C4_password_from_ippproxy_password :
    ∀ env : String → Option String,
      resolve_password none env = env "IPPPROXY_PASSWORD" ∧
      ∀ cli : Option String,
        password_cb_registered cli env =
          (cli.isSome || (env "IPPPROXY_PASSWORD").isSome) := by
  intro env
  refine ⟨rfl, ?_⟩
  intro cli
  cases cli <;> rfl

/-! ## C6 -/

/-- C6: the poll sleep is 10 seconds when `notify-get-interval` is
absent; the values −1, 0, 7, 30, 99 give sleeps of 30, 0, 7, 30, 30; and
every value outside `[0, 30]` is replaced by 30. -/
theorem C6_poll_sleep_clamping :
    pollSleep none = 10 ∧
    pollSleep (some (-1)) = 30 ∧ pollSleep (some 0) = 0 ∧
    pollSleep (some 7) = 7 ∧ pollSleep (some 30) = 30 ∧
    pollSleep (some 99) = 30 ∧
    (∀ v : Int, (v < 0 ∨ 30 < v) → pollSleep (some v) = 30) := by
  refine ⟨by decide, by decide, by decide, by decide, by decide, by decide, ?_⟩
  intro v hv
  have hcond : (v < 0 || v > 30) = true := by
    rcases hv with h | h
    · simp [h]
    · simp [h]
  simp [pollSleep, hcond]

/-- C6 witness: at the out-of-range value 31 the clamp applies. -/
theorem C6_poll_sleep_clamping_witness : pollSleep (some 31) = 30 :=
  C6_poll_sleep_clamping.2.2.2.2.2.2 31 (Or.inr (by decide))

/-! ## C7 -/

/-- C7: from initial back-off state 1, the low byte of the state over the
first 11 values (initial state and ten `FIB_NEXT` successors) is
1, 1, 2, 3, 5, 8, 13, 21, 34, 55, 29. -/
theorem C7_fib_backoff_low_bytes :
    (List.range 11).map (fun i => FIB_VALUE (fibState i)) =
      [1, 1, 2, 3, 5, 8, 13, 21, 34, 55, 29] := by decide

/-! ## C8 -/

/-- The probe response of the URF-only device of the claim. -/
def urfProbeBundle : List IppAttribute :=
  [{ name := "urf-supported", group := IppGroup.printer,
     tag := IppTag.keyword,
     values := [IppData.str "RS300-600", IppData.str "DM3",
                IppData.str "SRGB24", IppData.str "W8"] }]

/-- C8: for a probe response with
`urf-supported = ["RS300-600", "DM3", "SRGB24", "W8"]` and no
`pwg-raster` attributes, the translation synthesizes exactly
`pwg-raster-document-resolution-supported = [300×300, 600×600]` dpi,
`pwg-raster-document-sheet-back = rotated`, and
`pwg-raster-document-type-supported = ["srgb_8", "sgray_8"]`. -/
theorem C8_urf_only_device_translation :
    translate_urf_attrs urfProbeBundle = urfProbeBundle ++
      [{ name := "pwg-raster-document-resolution-supported",
         group := IppGroup.printer, tag := IppTag.resolution,
         values := [IppData.res 3 300 300, IppData.res 3 600 600] },
       { name := "pwg-raster-document-sheet-back",
         group := IppGroup.printer, tag := IppTag.keyword,
         values := [IppData.str "rotated"] },
       { name := "pwg-raster-document-type-supported",
         group := IppGroup.printer, tag := IppTag.keyword,
         values := [IppData.str "srgb_8", IppData.str "sgray_8"] }] := by
  decide

/-! ## C10 -/

/-- C10: when registration succeeded but the initial
`Update-Output-Device-Attributes` returns a status other than OK,
`run_printer` never reaches the notification polling loop and the
process exits 0; the exit status is 1 exactly when `register_printer`
returned 0. -/
theorem C10_update_failure_exits_zero :
    ∀ (isSys : Bool) (regStatus : Nat) (xriUri : Option String)
      (reconnectOk : Bool) (subStatus : Nat) (subIdAttr : Option Int)
      (updateStatus : Nat) (remoteJobsOk : Bool),
      (register_printer isSys regStatus xriUri reconnectOk subStatus
         subIdAttr ≠ 0 →
       updateStatus ≠ IPP_STATUS_OK →
       proxy_process_outcome isSys regStatus xriUri reconnectOk subStatus
         subIdAttr updateStatus remoteJobsOk = (0, false)) ∧
      ((proxy_process_outcome isSys regStatus xriUri reconnectOk subStatus
          subIdAttr updateStatus remoteJobsOk).1 = 1 ↔
       register_printer isSys regStatus xriUri reconnectOk subStatus
         subIdAttr = 0) := by
  intro isSys regStatus xriUri reconnectOk subStatus subIdAttr updateStatus remoteJobsOk
  constructor
  · intro hreg hupd
    unfold proxy_process_outcome
    rw [if_neg hreg]
    have hok : update_device_attrs_ok updateStatus = false := by
      simp [update_device_attrs_ok, hupd]
    simp [run_printer_enters_poll_loop, hok]
  · unfold proxy_process_outcome
    by_cases hreg : register_printer isSys regStatus xriUri reconnectOk
        subStatus subIdAttr = 0
    · simp [hreg]
    · simp [hreg]

/-- C10 witness: non-system registration succeeding with subscription
id 5, then `Update-Output-Device-Attributes` failing with
`bad-request`: exit 0 and no polling loop. -/
theorem C10_update_failure_exits_zero_witness :
    proxy_process_outcome false 0 none true IPP_STATUS_OK (some 5)
      IPP_STATUS_ERROR_BAD_REQUEST true = (0, false) :=
  (C10_update_failure_exits_zero false 0 none true IPP_STATUS_OK (some 5)
      IPP_STATUS_ERROR_BAD_REQUEST true).1 (by decide) (by decide)

/-! ## C5 -/

/-- C5: for every job processed by `run_job` (the connection loop having
succeeded): a `Fetch-Job` status of `error-not-fetchable` sets
`local_job_state` to completed and returns without fetching any document
and without issuing `Update-Job-Status`; any other failure status at or
above `redirection-other-site` sets aborted and issues a final
`Update-Job-Status`; on success, `Acknowledge-Job` is the next request
after `Fetch-Job`. -/
theorem C5_fetch_job_error_handling :
    ∀ env : RunJobEnv, env.connectOk = true →
      (env.fetchStatus = IPP_STATUS_ERROR_NOT_FETCHABLE →
        (run_job env).states = [IPP_JSTATE_COMPLETED] ∧
        (∀ d f, ProxyAction.fetchDoc d f ∉ (run_job env).actions) ∧
        (∀ s, ProxyAction.updateJobStatus s ∉ (run_job env).actions)) ∧
      (IPP_STATUS_REDIRECTION_OTHER_SITE ≤ env.fetchStatus →
        env.fetchStatus ≠ IPP_STATUS_ERROR_NOT_FETCHABLE →
        (run_job env).states = [IPP_JSTATE_ABORTED] ∧
        (run_job env).actions =
          [ProxyAction.fetchJob,
           ProxyAction.updateJobStatus IPP_JSTATE_ABORTED]) ∧
      (env.fetchNull = false →
        env.fetchStatus < IPP_STATUS_REDIRECTION_OTHER_SITE →
        (run_job env).actions.take 2 =
          [ProxyAction.fetchJob, ProxyAction.acknowledgeJob]) := by
  intro env hconn
  refine ⟨?_, ?_, ?_⟩
  · intro hst
    have hrun : run_job env =
        ⟨[IPP_JSTATE_COMPLETED], [ProxyAction.fetchJob]⟩ := by
      unfold run_job
      rw [hconn]
      simp [hst, IPP_STATUS_ERROR_NOT_FETCHABLE,
            IPP_STATUS_REDIRECTION_OTHER_SITE]
    rw [hrun]
    refine ⟨rfl, ?_, ?_⟩
    · intro d f
      simp
    · intro s
      simp
  · intro hge hne
    have hrun : run_job env =
        ⟨[IPP_JSTATE_ABORTED],
         [ProxyAction.fetchJob,
          ProxyAction.updateJobStatus IPP_JSTATE_ABORTED]⟩ := by
      unfold run_job
      rw [hconn]
      simp [hge, hne]
    rw [hrun]
    exact ⟨rfl, rfl⟩
  · intro hnull hlt
    have hlt2 : ¬(IPP_STATUS_REDIRECTION_OTHER_SITE ≤ env.fetchStatus) :=
      Nat.not_le.mpr hlt
    unfold run_job
    rw [hconn]
    by_cases hack : IPP_STATUS_REDIRECTION_OTHER_SITE ≤ env.ackStatus
    · simp [hnull, hlt2, hack]
    · simp [hnull, hlt2, hack]

/-- A job whose `Fetch-Job` reports `error-not-fetchable`. -/
def notFetchableEnv : RunJobEnv :=
  { connectOk := true, fetchNull := false,
    fetchStatus := IPP_STATUS_ERROR_NOT_FETCHABLE,
    ackStatus := IPP_STATUS_OK, numDocsAttr := 1, outformat := none,
    docFormats := [], docs := fun _ => okDocEnv }

/-- C5 witness: the not-fetchable job ends completed. -/
theorem C5_fetch_job_error_handling_witness :
    (run_job notFetchableEnv).states = [IPP_JSTATE_COMPLETED] :=
  ((C5_fetch_job_error_handling notFetchableEnv rfl).1 rfl).1

/-! ## C9 -/

/-- Every `Fetch-Document` request issued by the per-document loop
carries exactly the format `run_job` selected. -/
theorem runDocsLoop_fetchDoc_format (env : RunJobEnv) (fmt : Option String) :
    ∀ (remaining docNumber d : Nat) (f : Option String),
      ProxyAction.fetchDoc d f ∈ (runDocsLoop env fmt docNumber remaining).2 →
      f = fmt := by
  intro remaining
  induction remaining with
  | zero =>
    intro docNumber d f h
    simp [runDocsLoop] at h
  | succ r ih =>
    intro docNumber d f h
    rw [runDocsLoop] at h
    split at h
    · simp at h
    · split at h
      · simp at h
        exact h.2
      · simp only [List.mem_append, List.mem_cons] at h
        rcases h with (h | h) | h
        · simp at h
          exact h.2
        · split at h
          · rcases List.mem_cons.mp h with h | h
            · simp at h
            · split at h
              · simp at h
              · simp at h
          · simp at h
        · rcases h with h | h
          · simp at h
          · exact ih (docNumber + 1) d f h

/-- C9: the `Fetch-Document` format is the `-m` type when supplied;
otherwise no `document-format-accepted` is chosen when the local device
advertises `application/pdf`; otherwise the first supported format in
the order `image/urf`, `image/pwg-raster`, `application/vnd.hp-pcl`
(none if none is supported). Every `fetchDoc` action of `run_job`
carries exactly this choice. -/
theorem C9_document_format_selection :
    (∀ (m : String) (fmts : List String),
       chooseDocFormat (some m) fmts = some m) ∧
    (∀ fmts : List String, fmts.contains "application/pdf" = true →
       chooseDocFormat none fmts = none) ∧
    (∀ fmts : List String, fmts.contains "application/pdf" = false →
       chooseDocFormat none fmts =
         (if fmts.contains "image/urf" then some "image/urf"
          else if fmts.contains "image/pwg-raster" then
            some "image/pwg-raster"
          else if fmts.contains "application/vnd.hp-pcl" then
            some "application/vnd.hp-pcl"
          else none)) ∧
    (∀ (env : RunJobEnv) (d : Nat) (f : Option String),
       ProxyAction.fetchDoc d f ∈ (run_job env).actions →
       f = chooseDocFormat env.outformat env.docFormats) := by
  refine ⟨?_, ?_, ?_, ?_⟩
  · intro m fmts
    rfl
  · intro fmts hpdf
    have hm : "application/pdf" ∈ fmts := by simpa using hpdf
    simp [chooseDocFormat, hm]
  · intro fmts hpdf
    have hm : "application/pdf" ∉ fmts := by simpa using hpdf
    simp [chooseDocFormat, hm]
  · intro env d f h
    unfold run_job at h
    split at h
    · simp at h
    · split at h
      · split at h
        · simp at h
        · simp at h
      · split at h
        · simp at h
        · simp only [List.mem_cons, List.mem_append] at h
          rcases h with h | h | h | h
          · simp at h
          · simp at h
          · simp at h
          · rcases h with h | h
            · exact runDocsLoop_fetchDoc_format env _ _ 1 d f h
            · simp at h

/-- C9 witness: a PDF-capable device with no `-m` gets no
`document-format-accepted`. -/
theorem C9_document_format_selection_witness :
    chooseDocFormat none ["image/urf", "application/pdf"] = none :=
  C9_document_format_selection.2.1 ["image/urf", "application/pdf"] (by decide)

/-! ## C3 -/

/-- The value tags `attrs_are_equal` actually compares; every other tag
falls into its `default: return false` case. -/
def comparableTag (t : IppTag) : Bool :=
  t == IppTag.integer || t == IppTag.enum ||
  t == IppTag.boolean || t == IppTag.keyword

/-- `attrs_are_equal` is reflexive on attributes of a comparable tag. -/
theorem attrs_are_equal_self (a : IppAttribute)
    (h : comparableTag a.tag = true) :
    attrs_are_equal (some a) (some a) = true := by
  obtain ⟨nm, g, t, vs⟩ := a
  simp only [attrs_are_equal]
  rw [if_neg (by simp), if_neg (by simp)]
  simp only [comparableTag] at h
  cases t <;> simp_all [List.all_eq_true]

/-- When no two attributes of a bundle share a name and value tag, the
lookup of a member's name and tag returns that member. -/
theorem ippFindAttribute_self {B : List IppAttribute} {a : IppAttribute}
    (hkeys : (B.map fun x => (x.name, x.tag)).Nodup) (ha : a ∈ B) :
    ippFindAttribute B a.name a.tag = some a := by
  induction B with
  | nil => cases ha
  | cons b bs ih =>
    rw [List.map_cons, List.nodup_cons] at hkeys
    rcases List.mem_cons.mp ha with rfl | hmem
    · unfold ippFindAttribute
      simp [List.find?_cons]
    · have hpred : (b.name == a.name && b.tag == a.tag) = false := by
        by_contra hne
        rw [Bool.not_eq_false, Bool.and_eq_true, beq_iff_eq, beq_iff_eq] at hne
        have hmm : (a.name, a.tag) ∈ bs.map (fun x => (x.name, x.tag)) :=
          List.mem_map_of_mem _ hmem
        rw [← hne.1, ← hne.2] at hmm
        exact hkeys.1 hmm
      unfold ippFindAttribute at ih ⊢
      rw [List.find?_cons_of_neg _ (by simp [hpred]), ih hkeys.2 hmem]

/-- An identical cached and probed resolution attribute, as the
fixed whitelist contains `printer-resolution-supported`. -/
def resolutionAttr : IppAttribute :=
  { name := "printer-resolution-supported", group := IppGroup.printer,
    tag := IppTag.resolution,
    values := [IppData.res 3 300 300, IppData.res 3 600 600] }

/-- C3 counterexample: `attrs_are_equal` on a resolution attribute and
itself is `false` (the `default` case of its switch), so with an
identical cached bundle the second `Update-Output-Device-Attributes`
request still carries the attribute — the diff is not empty. -/
theorem C3_counterexample_identical_resolution_recopied :
    attrs_are_equal (some resolutionAttr) (some resolutionAttr) = false ∧
    update_device_attrs_diff [resolutionAttr] [resolutionAttr] =
      [resolutionAttr] := by
  refine ⟨by decide, by decide⟩

/-- C3 amended: re-running the diff with an identical bundle copies no
attribute whose value tag is integer, enum, boolean or keyword;
attributes of any other value tag (resolution, mimetype, rangeOfInteger,
collection, ...) are re-sent even when identical. In particular, when no
two attributes of the bundle share a name and value tag and every
whitelisted printer attribute has a comparable tag, the second request
carries no printer attributes at all. -/
theorem C3_second_diff_empty_for_comparable_tags (B : List IppAttribute)
    (hkeys : (B.map fun x => (x.name, x.tag)).Nodup)
    (hcomp : ∀ a ∈ B, a.group = IppGroup.printer →
      whitelistScan a.name printer_attrs = true →
      comparableTag a.tag = true) :
    update_device_attrs_diff B B = [] := by
  unfold update_device_attrs_diff
  rw [List.filter_eq_nil_iff]
  intro a ha
  rw [Bool.not_eq_true]
  unfold attrCopied
  by_cases hg : a.group = IppGroup.printer
  · by_cases hw : whitelistScan a.name printer_attrs = true
    · have hc := hcomp a ha hg hw
      rw [ippFindAttribute_self hkeys ha, attrs_are_equal_self a hc]
      simp
    · rw [Bool.not_eq_true] at hw
      simp [hw]
  · simp [hg]

/-- A two-attribute bundle with comparable tags. -/
def comparableBundle : List IppAttribute :=
  [{ name := "print-quality-default", group := IppGroup.printer,
     tag := IppTag.enum, values := [IppData.int 4] },
   { name := "sides-supported", group := IppGroup.printer,
     tag := IppTag.keyword,
     values := [IppData.str "one-sided",
                IppData.str "two-sided-long-edge"] }]

/-- C3 witness: for a bundle of integer/enum/boolean/keyword attributes
the second diff is empty. -/
theorem C3_second_diff_empty_witness :
    update_device_attrs_diff comparableBundle comparableBundle = [] :=
  C3_second_diff_empty_for_comparable_tags comparableBundle
    (by decide) (by decide)
